import Mathlib

/-!
Verification development for the diffusers fork (consistency-model pipeline
and BLIP-2 / Q-Former modeling code).

The embeddings below are shallow translations of
`src/diffusers/pipelines/consistency_models/pipeline_consistency_models.py`
and `src/diffusers/pipelines/blip_diffusion/modeling_blip2.py`.
Scalars stand in for tensors where the operation under study is
element-wise; genuinely opaque numeric kernels (the UNet, `torch.log`,
`** 0.5`, linear projections, LayerNorm) are passed in as function
parameters, so every theorem is uniform in them.
-/

namespace ConsistencyModels

/-- A Python-style error: the pipeline raises `ValueError` in its own
precondition checks; indexing an empty `sigmas` tensor would raise an
`IndexError` instead. -/
inductive PyError
  | valueError
  | indexError
  deriving DecidableEq, Repr

/-- The scheduler attributes read by
`ConsistencyModelPipeline.get_sigma_min_max_from_scheduler`.
`hasSigmaMin` mirrors Python `hasattr(self.scheduler, "sigma_min")`
(on real schedulers `sigma_min` and `sigma_max` come together), and
`hasSigmas` mirrors `hasattr(self.scheduler, "sigmas")`; the `sigmas`
tensor is kept as a list. -/
structure CMScheduler where
  hasSigmaMin : Bool
  sigma_min : ℚ
  sigma_max : ℚ
  hasSigmas : Bool
  sigmas : List ℚ
  deriving Repr

/-- Embedding of `ConsistencyModelPipeline.get_sigma_min_max_from_scheduler`
(pipeline_consistency_models.py lines 54-76): return
`(scheduler.sigma_min, scheduler.sigma_max)` when the scheduler has a
`sigma_min` attribute, else `(sigmas[-1], sigmas[0])` when it has a
`sigmas` attribute, else raise `ValueError`.  The method only reads
scheduler attributes, so the pipeline state is the (unchanged) input. -/
def get_sigma_min_max_from_scheduler (s : CMScheduler) : Except PyError (ℚ × ℚ) :=
  if s.hasSigmaMin then
    Except.ok (s.sigma_min, s.sigma_max)
  else if s.hasSigmas then
    match s.sigmas.getLast?, s.sigmas.head? with
    | some last, some hd => Except.ok (last, hd)
    | _, _ => Except.error PyError.indexError
  else
    Except.error PyError.valueError

/-- Embedding of `ConsistencyModelPipeline.get_scalings_for_boundary_condition`
(lines 97-109).  `sqrtFn` stands for the opaque float operation
`(.) ** 0.5`; the returned triple is `(c_skip, c_out, c_in)`:
`c_skip = sigma_data^2 / ((sigma - sigma_min)^2 + sigma_data^2)`,
`c_out  = (sigma - sigma_min) * sigma_data / sqrt(sigma^2 + sigma_data^2)`,
`c_in   = 1 / sqrt(sigma^2 + sigma_data^2)`. -/
def get_scalings_for_boundary_condition (sqrtFn : ℚ → ℚ)
    (sigma sigma_min sigma_data : ℚ) : ℚ × ℚ × ℚ :=
  (sigma_data ^ 2 / ((sigma - sigma_min) ^ 2 + sigma_data ^ 2),
   (sigma - sigma_min) * sigma_data / sqrtFn (sigma ^ 2 + sigma_data ^ 2),
   1 / sqrtFn (sigma ^ 2 + sigma_data ^ 2))

/-- Python's `Tensor.clamp(-1, 1)` on a scalar. -/
def clampUnit (x : ℚ) : ℚ := max (-1) (min 1 x)

/-- Embedding of `ConsistencyModelPipeline.denoise` (lines 111-126).
`unet` is the opaque denoising network `(c_in * x_t, rescaled_t) ↦
model_output`, `logFn` the opaque `torch.log`.  Returns
`(model_output, denoised)` where
`denoised = c_out * model_output + c_skip * x_t`, clamped to `[-1, 1]`
when `clip_denoised` is set. -/
def denoise (sqrtFn logFn : ℚ → ℚ) (unet : ℚ → ℚ → ℚ)
    (x_t sigma sigma_min sigma_data : ℚ) (clip_denoised : Bool) : ℚ × ℚ :=
  let c := get_scalings_for_boundary_condition sqrtFn sigma sigma_min sigma_data
  let c_skip := c.1
  let c_out := c.2.1
  let c_in := c.2.2
  let rescaled_t := 1000 * (1 / 4) * logFn (sigma + 1 / 10 ^ 44)
  let model_output := unet (c_in * x_t) rescaled_t
  let denoised := c_out * model_output + c_skip * x_t
  (model_output, if clip_denoised then clampUnit denoised else denoised)

/-- The result of a scheduler `step` call; the pipeline reads its
`prev_sample` field. -/
structure StepOutput where
  prev_sample : ℚ
  deriving Repr

/-- An observable call made inside the denoising section of
`ConsistencyModelPipeline.__call__`: a call of `denoise` with the given
`x_t` argument, or a call of `scheduler.step` whose `prev_sample` result
is recorded. -/
inductive CMEvent
  | denoiseCall (x_t : ℚ)
  | stepCall (prev_sample : ℚ)
  deriving DecidableEq, Repr

/-- One iteration of the Karras-sigmas denoising loop of
`ConsistencyModelPipeline.__call__` (lines 214-233, the branch for
schedulers with a `sigmas` attribute): look up `sigma` for the timestep,
call `denoise` on the current `sample`, call `scheduler.step` and take
its `prev_sample` as the next sample.  `denoiseFn t x_t` abstracts
`self.denoise(sample, sigma, sigma_min, ...)` at the sigma of timestep
`t`, and `stepFn denoised t sample` abstracts
`self.scheduler.step(denoised, t, sample, **extra_step_kwargs)`.
Returns the next sample together with the trace of calls made. -/
def karrasLoopIter (denoiseFn : ℚ → ℚ → ℚ) (stepFn : ℚ → ℚ → ℚ → StepOutput)
    (sample t : ℚ) : ℚ × List CMEvent :=
  let denoised := denoiseFn t sample
  let out := stepFn denoised t sample
  (out.prev_sample, [CMEvent.denoiseCall sample, CMEvent.stepCall out.prev_sample])

/-- The full Karras-sigmas denoising loop (`for i, t in enumerate(timesteps)`),
threading the sample through `karrasLoopIter` and accumulating the call
trace. -/
def karrasLoop (denoiseFn : ℚ → ℚ → ℚ) (stepFn : ℚ → ℚ → ℚ → StepOutput)
    (sample : ℚ) : List ℚ → ℚ × List CMEvent
  | [] => (sample, [])
  | t :: ts =>
    let r := karrasLoopIter denoiseFn stepFn sample t
    let rest := karrasLoop denoiseFn stepFn r.1 ts
    (rest.1, r.2 ++ rest.2)

/-- Specification-side loop, written from the claim's words: at each
timestep, denoise the current sample once, step once, and continue from
the step result's `prev_sample`, with no other update to the sample. -/
def specDenoiseLoopTrace (denoiseFn : ℚ → ℚ → ℚ)
    (stepFn : ℚ → ℚ → ℚ → StepOutput) (sample : ℚ) : List ℚ → List CMEvent
  | [] => []
  | t :: ts =>
    let next := (stepFn (denoiseFn t sample) t sample).prev_sample
    CMEvent.denoiseCall sample :: CMEvent.stepCall next ::
      specDenoiseLoopTrace denoiseFn stepFn next ts

/-- One iteration of the multi-step (stochastic iterative) branch of
`ConsistencyModelPipeline.__call__` (lines 198-208, the branch for
schedulers with `add_noise_to_input`): the scheduler first noises the
current sample, `sample_hat, sigma_hat = scheduler.add_noise_to_input(sample,
sigma, ...)`, then `denoise` is called on `sample_hat` (not on `sample`),
and `scheduler.step(denoised, sigma_hat, sigma_prev, sample_hat)` produces
the next sample.  `sigmaAt i` abstracts `sigmas[step_idx]` for the
iteration, `addNoise sample sigma` abstracts `add_noise_to_input`. -/
def multistepLoopIter (denoiseFn : ℚ → ℚ → ℚ)
    (addNoise : ℚ → ℚ → ℚ × ℚ) (stepFn : ℚ → ℚ → ℚ → ℚ → StepOutput)
    (sample sigma sigma_prev : ℚ) : ℚ × List CMEvent :=
  let noised := addNoise sample sigma
  let sample_hat := noised.1
  let sigma_hat := noised.2
  let denoised := denoiseFn sigma sample_hat
  let out := stepFn denoised sigma_hat sigma_prev sample_hat
  (out.prev_sample, [CMEvent.denoiseCall sample_hat, CMEvent.stepCall out.prev_sample])

end ConsistencyModels

namespace Blip2

/-- The configuration fields read by the attention constructors in
modeling_blip2.py.  `hasEmbeddingSize` mirrors Python
`hasattr(config, "embedding_size")` (Blip2QFormerMultiHeadAttention line
569 skips its divisibility check when that attribute exists). -/
structure AttnConfig where
  hidden_size : ℕ
  num_attention_heads : ℕ
  hasEmbeddingSize : Bool
  deriving DecidableEq, Repr

/-- Whether `Blip2Attention.__init__` (modeling_blip2.py lines 185-196)
raises its `ValueError`: it computes `head_dim = embed_dim // num_heads`
(Python floor division) and raises when
`head_dim * num_heads != embed_dim`. -/
def blip2AttentionInitRaises (c : AttnConfig) : Bool :=
  c.hidden_size / c.num_attention_heads * c.num_attention_heads != c.hidden_size

/-- Whether `Blip2QFormerMultiHeadAttention.__init__` (modeling_blip2.py
lines 566-573) raises its `ValueError`: it raises when
`config.hidden_size % config.num_attention_heads != 0` and the config
does not have an `embedding_size` attribute. -/
def blip2QFormerMHAInitRaises (c : AttnConfig) : Bool :=
  c.hidden_size % c.num_attention_heads != 0 && !c.hasEmbeddingSize

/-- Embedding of `Blip2TextEmbeddings.forward` (modeling_blip2.py lines
117-146) over a value type `V` standing for one position's hidden
vector.  `word_embeddings` and `position_embeddings` are the opaque
embedding tables (index to vector), `layerNorm` and `dropout` the opaque
position-wise `self.LayerNorm` and `self.dropout`.  When `position_ids`
is `none` the code slices
`self.position_ids[:, past_key_values_length : seq_length +
past_key_values_length]` out of `arange(max_position_embeddings)`.
Word and position embeddings are added position-wise (when
`position_embedding_type == "absolute"`), then `query_embeds`, if any,
is concatenated in front along the sequence dimension; with no
`input_ids` the embeddings are just `query_embeds`.  LayerNorm and
dropout are applied position-wise at the end. -/
def blip2TextEmbeddingsForward {V : Type} [Add V]
    (word_embeddings position_embeddings : ℕ → V) (layerNorm dropout : V → V)
    (absolutePositionType : Bool) (max_position_embeddings : ℕ)
    (input_ids : Option (List ℕ)) (position_ids : Option (List ℕ))
    (query_embeds : Option (List V)) (past_key_values_length : ℕ) :
    Option (List V) :=
  let seq_length := match input_ids with
    | some ids => ids.length
    | none => 0
  let pos_ids := match position_ids with
    | some p => p
    | none =>
      ((List.range max_position_embeddings).drop past_key_values_length).take seq_length
  let embeddings : Option (List V) := match input_ids with
    | some ids =>
      let word := ids.map word_embeddings
      let withPos := if absolutePositionType then
          List.zipWith (fun a b => a + b) word (pos_ids.map position_embeddings)
        else word
      some (match query_embeds with
        | some q => q ++ withPos
        | none => withPos)
    | none => query_embeds
  embeddings.map (fun l => (l.map layerNorm).map dropout)

/-- The tensors computed by `Blip2QFormerMultiHeadAttention.forward` that
the cross-attention claim is about: the key/value/query layers after
projection and `transpose_for_scores`, and the attention scores after
scaling and (optional) mask addition. -/
structure QFormerMHAOut (M : Type) where
  keyLayer : M
  valueLayer : M
  queryLayer : M
  attentionScores : M
  deriving DecidableEq, Repr

/-- Embedding of the data flow of `Blip2QFormerMultiHeadAttention.forward`
(modeling_blip2.py lines 611-694) over an opaque tensor type `M`.
`keyProj`, `valueProj`, `queryProj` stand for
`transpose_for_scores(self.key(.))` etc., `catPast` for the
`torch.cat([past_key_value[i], .], dim=2)` concatenation, `rawScores`
for `matmul(query_layer, key_layer.transpose(-1, -2)) / sqrt(head_size)`
and `addMask` for `attention_scores + attention_mask`.  When
`encoder_hidden_states` is given (cross-attention) the keys and values
are projected from it and the local variable `attention_mask` is
reassigned to `encoder_attention_mask` (line 629), so the mask later
added to the scores (lines 666-668) is the encoder one; otherwise keys
and values come from `hidden_states`, extended by the cached
`past_key_value` when present. -/
def blip2QFormerMHAForward {M : Type}
    (keyProj valueProj queryProj : M → M) (catPast : M → M → M)
    (rawScores : M → M → M) (addMask : M → M → M)
    (hidden_states : M) (attention_mask : Option M)
    (encoder_hidden_states : Option M) (encoder_attention_mask : Option M)
    (past_key_value : Option (M × M)) : QFormerMHAOut M :=
  let kvm : M × M × Option M := match encoder_hidden_states with
    | some enc => (keyProj enc, valueProj enc, encoder_attention_mask)
    | none => match past_key_value with
      | some pkv =>
        (catPast pkv.1 (keyProj hidden_states),
         catPast pkv.2 (valueProj hidden_states), attention_mask)
      | none => (keyProj hidden_states, valueProj hidden_states, attention_mask)
  let key_layer := kvm.1
  let value_layer := kvm.2.1
  let mask := kvm.2.2
  let query_layer := queryProj hidden_states
  let scores := rawScores query_layer key_layer
  let scores := match mask with
    | some m => addMask scores m
    | none => scores
  ⟨key_layer, value_layer, query_layer, scores⟩

/-- The structure of one `Blip2QFormerLayer` as fixed by its constructor
(modeling_blip2.py lines 792-810): the layer index, the always-present
self-attention block, and the cross-attention block present iff
`layer_idx % config.cross_attention_frequency == 0`. -/
structure QFormerLayer where
  layer_idx : ℕ
  has_self_attention : Bool
  has_cross_attention : Bool
  deriving DecidableEq, Repr

/-- Embedding of `Blip2QFormerLayer.__init__`: `self.attention` is always
built, and `self.crossattention` exactly when
`layer_idx % cross_attention_frequency == 0`. -/
def mkQFormerLayer (cross_attention_frequency layer_idx : ℕ) : QFormerLayer :=
  ⟨layer_idx, true, layer_idx % cross_attention_frequency == 0⟩

/-- Embedding of `Blip2QFormerEncoder.__init__` (modeling_blip2.py lines
895-901): layers `0, ..., num_hidden_layers - 1`, each a
`Blip2QFormerLayer` built from the shared config. -/
def mkQFormerEncoderLayers (cross_attention_frequency num_hidden_layers : ℕ) :
    List QFormerLayer :=
  (List.range num_hidden_layers).map (mkQFormerLayer cross_attention_frequency)

/-- A tensor as a shape together with its flattened entries; inserting a
`None` index (unsqueeze) changes only the shape, and the element-wise
mask arithmetic changes only the data. -/
structure PTensor where
  shape : List ℕ
  data : List ℚ
  deriving DecidableEq, Repr

/-- Embedding of `Blip2QFormerModel.get_extended_attention_mask`
(modeling_blip2.py lines 1122-1165).  A 3-d mask `[b, f, t]` becomes
`attention_mask[:, None, :, :]` of shape `[b, 1, f, t]`; a 2-d mask
`[b, s]` becomes `attention_mask[:, None, None, :]` of shape
`[b, 1, 1, s]`; any other dimensionality raises `ValueError`.  Finally
every entry `x` is mapped to `(1.0 - x) * -10000.0`. -/
def get_extended_attention_mask (m : PTensor) :
    Except ConsistencyModels.PyError PTensor :=
  match m.shape with
  | [b, f, t] =>
    Except.ok ⟨[b, 1, f, t], m.data.map (fun x => (1 - x) * (-10000))⟩
  | [b, s] =>
    Except.ok ⟨[b, 1, 1, s], m.data.map (fun x => (1 - x) * (-10000))⟩
  | _ => Except.error ConsistencyModels.PyError.valueError

end Blip2

namespace Blip2

/-- Value semantics of `torch.utils.checkpoint.checkpoint(f, *args)`:
the checkpointed call returns exactly `f(*args)`; checkpointing trades
memory for recomputation but not the value. -/
def blip2CheckpointCall {A B : Type} (f : A → B) (x : A) : B := f x

/-- The per-layer loop of `Blip2Encoder.forward` (modeling_blip2.py lines
527-553) over opaque hidden-state type `H`, mask type `A` and
attention-weights type `W`.  Each layer is a function
`hidden_states → attention_mask → output_attentions → (hidden, attn)`
(the tuple returned by `Blip2EncoderLayer.forward`).  When
`gradient_checkpointing && training`, the layer is invoked through
`blip2CheckpointCall` on a `custom_forward` closure that appends
`output_attentions` to the checkpointed inputs
`(hidden_states, attention_mask)`; otherwise it is invoked directly with
the same three arguments.  Hidden states are collected before each layer
when `output_hidden_states`, and `layer_outputs[1]` is collected when
`output_attentions`.  Returns (final hidden state, collected hidden
states, collected attentions). -/
def blip2EncoderLoop {H A W : Type}
    (gradient_checkpointing training output_attentions output_hidden_states : Bool)
    (attention_mask : A) :
    List (H → A → Bool → H × Option W) → H → H × List H × List (Option W)
  | [], h => (h, [], [])
  | encoder_layer :: rest, h =>
    let layer_outputs :=
      if gradient_checkpointing && training then
        blip2CheckpointCall
          (fun p : H × A => encoder_layer p.1 p.2 output_attentions)
          (h, attention_mask)
      else
        encoder_layer h attention_mask output_attentions
    let r := blip2EncoderLoop gradient_checkpointing training output_attentions
      output_hidden_states attention_mask rest layer_outputs.1
    (r.1,
     (if output_hidden_states then [h] else []) ++ r.2.1,
     (if output_attentions then [layer_outputs.2] else []) ++ r.2.2)

/-- Embedding of `Blip2Encoder.forward`: run the layer loop starting at
`inputs_embeds` and, when `output_hidden_states`, append the final
hidden state to the collected ones (line 555-556). -/
def blip2EncoderForward {H A W : Type}
    (layers : List (H → A → Bool → H × Option W))
    (gradient_checkpointing training : Bool)
    (inputs_embeds : H) (attention_mask : A)
    (output_attentions output_hidden_states : Bool) :
    H × List H × List (Option W) :=
  let r := blip2EncoderLoop gradient_checkpointing training output_attentions
    output_hidden_states attention_mask layers inputs_embeds
  (r.1, r.2.1 ++ (if output_hidden_states then [r.1] else []), r.2.2)

/-- Modelled from the external helper
`transformers.pytorch_utils.find_pruneable_heads_and_indices` (imported
by modeling_blip2.py, not part of this repository): the set of heads it
returns is `set(heads) - already_pruned_heads`, the requested heads that
were not already pruned.  (The index tensor it also returns is consumed
only by the opaque `prune_linear_layer`.) -/
def find_pruneable_heads (heads : List ℕ) (already_pruned_heads : Finset ℕ) :
    Finset ℕ :=
  heads.toFinset \ already_pruned_heads

/-- The mutable fields of `Blip2QFormerAttention` touched by
`prune_heads`; `L` is the opaque type of linear layers. -/
structure QFormerAttentionModule (L : Type) where
  num_attention_heads : ℕ
  attention_head_size : ℕ
  all_head_size : ℕ
  pruned_heads : Finset ℕ
  query : L
  key : L
  value : L
  dense : L

/-- Embedding of `Blip2QFormerAttention.prune_heads` (modeling_blip2.py
lines 719-735).  With an empty head list it returns immediately.
Otherwise it computes the not-yet-pruned heads, prunes the four linear
layers through the opaque `prune_linear` (standing for
`prune_linear_layer` at the computed index), decreases
`num_attention_heads` by the number of newly pruned heads, recomputes
`all_head_size = attention_head_size * num_attention_heads`, and unions
the newly pruned heads into `pruned_heads`. -/
def prune_heads {L : Type} (prune_linear : L → Finset ℕ → L)
    (m : QFormerAttentionModule L) (heads : List ℕ) : QFormerAttentionModule L :=
  if heads.length = 0 then m
  else
    let newHeads := find_pruneable_heads heads m.pruned_heads
    { num_attention_heads := m.num_attention_heads - newHeads.card
      attention_head_size := m.attention_head_size
      all_head_size := m.attention_head_size * (m.num_attention_heads - newHeads.card)
      pruned_heads := m.pruned_heads ∪ newHeads
      query := prune_linear m.query newHeads
      key := prune_linear m.key newHeads
      value := prune_linear m.value newHeads
      dense := prune_linear m.dense newHeads }

end Blip2

namespace ConsistencyModels

/-- Claim C1 (amended): for schedulers handled by the Karras-sigmas
branch of `ConsistencyModelPipeline.__call__`, the denoising loop
refines the claimed fixed loop: its call trace is exactly, per timestep,
one `denoise` call on the current sample followed by one
`scheduler.step` call whose `prev_sample` becomes the next sample, with
no other update to the sample. -/
theorem claim_C1_karrasLoop_refines_spec (denoiseFn : ℚ → ℚ → ℚ)
    (stepFn : ℚ → ℚ → ℚ → StepOutput) (sample : ℚ) (ts : List ℚ) :
    (karrasLoop denoiseFn stepFn sample ts).2 =
      specDenoiseLoopTrace denoiseFn stepFn sample ts := by
  induction ts generalizing sample with
  | nil => rfl
  | cons t ts ih =>
    simp [karrasLoop, karrasLoopIter, specDenoiseLoopTrace, ih]

/-- Claim C1 counterexample: in the multi-step
(`add_noise_to_input`) branch the loop body first noises the current
sample and invokes `denoise` on the noised `sample_hat`, not on the
current sample.  Concretely, with `add_noise_to_input` adding 1 and the
loop entered at sample 0, the recorded denoise call is on 1 while the
current sample is 0, refuting the claim for that compatible scheduler. -/
theorem claim_C1_counterexample :
    (multistepLoopIter (fun _ x => x) (fun s σ => (s + 1, σ))
        (fun d _ _ _ => ⟨d⟩) 0 1 1).2 =
      [CMEvent.denoiseCall 1, CMEvent.stepCall 1] ∧ (1 : ℚ) ≠ 0 := by
  norm_num [multistepLoopIter]

/-- Claim C3: `get_sigma_min_max_from_scheduler` returns
`(scheduler.sigma_min, scheduler.sigma_max)` when the scheduler has a
`sigma_min` attribute, else `(sigmas[-1], sigmas[0])` when it has a
(nonempty) `sigmas` attribute, and raises `ValueError` if and only if it
has neither; being read-only in the embedding, it leaves the scheduler
(hence the pipeline state) unchanged on error. -/
theorem claim_C3_get_sigma_min_max_spec (s : CMScheduler) :
    (s.hasSigmaMin = true →
      get_sigma_min_max_from_scheduler s = Except.ok (s.sigma_min, s.sigma_max))
    ∧ (s.hasSigmaMin = false → s.hasSigmas = true → s.sigmas ≠ [] →
      ∃ last hd, s.sigmas.getLast? = some last ∧ s.sigmas.head? = some hd ∧
        get_sigma_min_max_from_scheduler s = Except.ok (last, hd))
    ∧ (get_sigma_min_max_from_scheduler s = Except.error PyError.valueError ↔
      s.hasSigmaMin = false ∧ s.hasSigmas = false) := by
  refine ⟨?_, ?_, ?_⟩
  · intro h
    simp [get_sigma_min_max_from_scheduler, h]
  · intro h1 h2 h3
    rcases hlast : s.sigmas.getLast? with _ | last
    · exact absurd (by simpa using hlast) h3
    · rcases hhd : s.sigmas.head? with _ | hd
      · exact absurd (by simpa using hhd) h3
      · exact ⟨last, hd, rfl, rfl,
          by simp [get_sigma_min_max_from_scheduler, h1, h2, hlast, hhd]⟩
  · cases hb : s.hasSigmaMin
    · cases hc : s.hasSigmas
      · simp [get_sigma_min_max_from_scheduler, hb, hc]
      · rcases hlast : s.sigmas.getLast? with _ | last <;>
          rcases hhd : s.sigmas.head? with _ | hd <;>
            simp [get_sigma_min_max_from_scheduler, hb, hc, hlast, hhd]
    · simp [get_sigma_min_max_from_scheduler, hb]

/-- Claim C3 witness: on a scheduler with only a `sigmas` attribute the
function returns the last and first sigma. -/
theorem claim_C3_witness :
    ∃ last hd,
      ((⟨false, 0, 0, true, [3, 2, 1]⟩ : CMScheduler)).sigmas.getLast? = some last ∧
      ((⟨false, 0, 0, true, [3, 2, 1]⟩ : CMScheduler)).sigmas.head? = some hd ∧
      get_sigma_min_max_from_scheduler ⟨false, 0, 0, true, [3, 2, 1]⟩ =
        Except.ok (last, hd) :=
  (claim_C3_get_sigma_min_max_spec ⟨false, 0, 0, true, [3, 2, 1]⟩).2.1 rfl rfl (by simp)

/-- Claim C9: at `sigma = sigma_min`, `get_scalings_for_boundary_condition`
returns `c_skip = 1` and `c_out = 0` for any positive `sigma_data`, so
the denoised value computed by `denoise` at the minimal noise level
equals the input `x_t` before the optional clamping. -/
theorem claim_C9_boundary_condition (sqrtFn logFn : ℚ → ℚ) (unet : ℚ → ℚ → ℚ)
    (x_t sigma_min sigma_data : ℚ) (hd : 0 < sigma_data) :
    (get_scalings_for_boundary_condition sqrtFn sigma_min sigma_min sigma_data).1 = 1
    ∧ (get_scalings_for_boundary_condition sqrtFn sigma_min sigma_min sigma_data).2.1 = 0
    ∧ (denoise sqrtFn logFn unet x_t sigma_min sigma_min sigma_data false).2 = x_t := by
  have h2 : sigma_data ^ 2 ≠ 0 := pow_ne_zero _ (ne_of_gt hd)
  refine ⟨?_, ?_, ?_⟩
  · simp [get_scalings_for_boundary_condition, sub_self, div_self h2]
  · simp [get_scalings_for_boundary_condition, sub_self]
  · simp [denoise, get_scalings_for_boundary_condition, sub_self, div_self h2]

/-- Claim C9 witness: concrete instantiation with `sigma_data = 1`,
identity stand-ins for the opaque kernels and `x_t = 7`. -/
theorem claim_C9_witness :
    (0 : ℚ) < 1
    ∧ ((get_scalings_for_boundary_condition (fun x => x) 2 2 1).1 = 1
      ∧ (get_scalings_for_boundary_condition (fun x => x) 2 2 1).2.1 = 0
      ∧ (denoise (fun x => x) (fun x => x) (fun a b => a + b) 7 2 2 1 false).2 = 7) :=
  ⟨by norm_num,
   claim_C9_boundary_condition (fun x => x) (fun x => x) (fun a b => a + b) 7 2 1 (by norm_num)⟩

end ConsistencyModels

namespace Blip2

/-- Claim C2 counterexample: with `hidden_size = 3`,
`num_attention_heads = 2` and an `embedding_size` attribute present,
`Blip2QFormerMultiHeadAttention.__init__` does not raise even though the
divisibility fails, so the claim as stated is false for that module. -/
theorem claim_C2_counterexample :
    blip2QFormerMHAInitRaises ⟨3, 2, true⟩ = false ∧ ¬ (2 ∣ 3) := by
  decide

/-- Claim C2 (amended): for positive `num_attention_heads`,
`Blip2Attention.__init__` raises its `ValueError` iff `hidden_size` is
not divisible by `num_attention_heads`, and
`Blip2QFormerMultiHeadAttention.__init__` raises its `ValueError` iff
the divisibility fails and the config has no `embedding_size`
attribute. -/
theorem claim_C2_init_raises_iff (c : AttnConfig)
    (_hpos : 0 < c.num_attention_heads) :
    (blip2AttentionInitRaises c = true ↔
      ¬ c.num_attention_heads ∣ c.hidden_size)
    ∧ (blip2QFormerMHAInitRaises c = true ↔
      ((¬ c.num_attention_heads ∣ c.hidden_size) ∧ c.hasEmbeddingSize = false)) := by
  have hdvd : c.num_attention_heads ∣ c.hidden_size ↔
      c.hidden_size / c.num_attention_heads * c.num_attention_heads = c.hidden_size :=
    ⟨fun h => Nat.div_mul_cancel h, fun h => h ▸ dvd_mul_left _ _⟩
  constructor
  · simp [blip2AttentionInitRaises, bne_iff_ne, hdvd]
  · simp [blip2QFormerMHAInitRaises, bne_iff_ne, Nat.dvd_iff_mod_eq_zero,
      Bool.and_eq_true, Bool.not_eq_true']

/-- Claim C2 witness: a config with `hidden_size = 6` and 4 heads. -/
theorem claim_C2_witness :
    0 < (⟨6, 4, false⟩ : AttnConfig).num_attention_heads
    ∧ ((blip2AttentionInitRaises ⟨6, 4, false⟩ = true ↔
        ¬ (⟨6, 4, false⟩ : AttnConfig).num_attention_heads ∣
          (⟨6, 4, false⟩ : AttnConfig).hidden_size)
      ∧ (blip2QFormerMHAInitRaises ⟨6, 4, false⟩ = true ↔
        ((¬ (⟨6, 4, false⟩ : AttnConfig).num_attention_heads ∣
            (⟨6, 4, false⟩ : AttnConfig).hidden_size)
          ∧ (⟨6, 4, false⟩ : AttnConfig).hasEmbeddingSize = false))) :=
  ⟨by decide, claim_C2_init_raises_iff ⟨6, 4, false⟩ (by decide)⟩

/-- Claim C4: with `input_ids` and `query_embeds` both present,
`Blip2TextEmbeddings.forward` concatenates the query embeddings in front
of the word-plus-position embeddings, so the output length is the number
of query tokens plus the text sequence length and the leading positions
are exactly the (LayerNorm-and-dropout processed) query tokens. -/
theorem claim_C4_query_prepended {V : Type} [Add V]
    (wE pE : ℕ → V) (ln dp : V → V) (absPos : Bool) (maxPos : ℕ)
    (ids : List ℕ) (q : List V) (past : ℕ)
    (h : past + ids.length ≤ maxPos) :
    ∃ out,
      blip2TextEmbeddingsForward wE pE ln dp absPos maxPos
          (some ids) none (some q) past = some out
        ∧ out.length = q.length + ids.length
        ∧ out.take q.length = q.map (fun v => dp (ln v)) := by
  refine ⟨_, rfl, ?_, ?_⟩
  · cases absPos
    · simp [blip2TextEmbeddingsForward]
    · simp [blip2TextEmbeddingsForward, List.length_zipWith]
      omega
  · cases absPos <;>
      simp [blip2TextEmbeddingsForward, List.map_append]

/-- Claim C4 witness: two text tokens and one query token. -/
theorem claim_C4_witness :
    0 + 2 ≤ 4
    ∧ ∃ out,
      blip2TextEmbeddingsForward (fun n => (n : ℚ)) (fun n => (n : ℚ))
          (fun v => v) (fun v => v) true 4 (some [0, 1]) none (some [5]) 0 = some out
        ∧ out.length = [(5 : ℚ)].length + [0, 1].length
        ∧ out.take [(5 : ℚ)].length = [(5 : ℚ)].map (fun v => (fun v => v) ((fun v => v) v)) :=
  ⟨by norm_num,
   claim_C4_query_prepended (fun n => (n : ℚ)) (fun n => (n : ℚ))
     (fun v => v) (fun v => v) true 4 [0, 1] [(5 : ℚ)] 0 (by norm_num)⟩

/-- Claim C5: whenever `encoder_hidden_states` is provided,
`Blip2QFormerMultiHeadAttention.forward` projects keys and values from
it while the query is still projected from `hidden_states`, and the mask
added to the attention scores is `encoder_attention_mask`, never the
`attention_mask` argument (the result does not depend on it). -/
theorem claim_C5_cross_attention_inputs {M : Type}
    (keyProj valueProj queryProj : M → M) (catPast : M → M → M)
    (rawScores addMask : M → M → M) (hidden_states : M)
    (attention_mask : Option M) (enc : M)
    (past_key_value : Option (M × M)) :
    ∀ encoder_attention_mask : Option M,
      blip2QFormerMHAForward keyProj valueProj queryProj catPast rawScores addMask
          hidden_states attention_mask (some enc) encoder_attention_mask past_key_value =
        ⟨keyProj enc, valueProj enc, queryProj hidden_states,
          match encoder_attention_mask with
          | some m => addMask (rawScores (queryProj hidden_states) (keyProj enc)) m
          | none => rawScores (queryProj hidden_states) (keyProj enc)⟩ := by
  intro em
  cases em <;> rfl

/-- Claim C6: in `Blip2QFormerEncoder` every layer has a self-attention
block, layer `i` has a cross-attention block iff
`i % cross_attention_frequency = 0`, and layer 0 always has
cross-attention (the positivity of the frequency mirrors that Python
`i % 0` would raise, not construct a layer). -/
theorem claim_C6_cross_attention_layers (freq n : ℕ) (_hf : 0 < freq) :
    (∀ i, i < n →
      ∃ L, (mkQFormerEncoderLayers freq n)[i]? = some L
        ∧ L.has_self_attention = true
        ∧ (L.has_cross_attention = true ↔ i % freq = 0))
    ∧ (0 < n →
      ∃ L, (mkQFormerEncoderLayers freq n)[0]? = some L
        ∧ L.has_cross_attention = true) := by
  constructor
  · intro i hi
    refine ⟨mkQFormerLayer freq i, ?_, rfl, ?_⟩
    · simp [mkQFormerEncoderLayers, List.getElem?_map, List.getElem?_range, hi]
    · simp [mkQFormerLayer]
  · intro hn
    refine ⟨mkQFormerLayer freq 0, ?_, ?_⟩
    · simp [mkQFormerEncoderLayers, List.getElem?_map, List.getElem?_range, hn]
    · simp [mkQFormerLayer]

/-- Claim C6 witness: three layers with cross-attention frequency 2. -/
theorem claim_C6_witness :
    0 < 2
    ∧ 1 < 3
    ∧ ∃ L, (mkQFormerEncoderLayers 2 3)[1]? = some L
        ∧ L.has_self_attention = true
        ∧ (L.has_cross_attention = true ↔ 1 % 2 = 0) :=
  ⟨by decide, by decide, (claim_C6_cross_attention_layers 2 3 (by decide)).1 1 (by decide)⟩

end Blip2

namespace Blip2

/-- Claim C7: `get_extended_attention_mask` maps a 2-d or 3-d mask to a
broadcastable mask (`[b, s] ↦ [b, 1, 1, s]`, `[b, f, t] ↦ [b, 1, f, t]`)
whose entries are `0.0` where the input is `1` and `-10000.0` where it
is `0`, and raises `ValueError` exactly for any other dimensionality. -/
theorem claim_C7_extended_attention_mask (m : PTensor) :
    ((m.shape.length = 2 ∨ m.shape.length = 3) →
      ∃ r, get_extended_attention_mask m = Except.ok r
        ∧ r.data = m.data.map (fun x => (1 - x) * (-10000))
        ∧ (∀ i : ℕ, (m.data[i]? = some 1 → r.data[i]? = some 0)
            ∧ (m.data[i]? = some 0 → r.data[i]? = some (-10000)))
        ∧ (∀ b s, m.shape = [b, s] → r.shape = [b, 1, 1, s])
        ∧ (∀ b f t, m.shape = [b, f, t] → r.shape = [b, 1, f, t]))
    ∧ (get_extended_attention_mask m = Except.error ConsistencyModels.PyError.valueError ↔
      (m.shape.length ≠ 2 ∧ m.shape.length ≠ 3)) := by
  obtain ⟨sh, da⟩ := m
  rcases sh with _ | ⟨a, _ | ⟨b, _ | ⟨c, _ | ⟨d, tl⟩⟩⟩⟩
  · exact ⟨by rintro (h | h) <;> simp at h, by simp [get_extended_attention_mask]⟩
  · exact ⟨by rintro (h | h) <;> simp at h, by simp [get_extended_attention_mask]⟩
  · refine ⟨fun _ => ⟨_, rfl, rfl, ?_, ?_, ?_⟩, by simp [get_extended_attention_mask]⟩
    · intro i
      constructor <;> intro h <;> simp [h]
    · intro b' s' h
      simp only [List.cons.injEq, and_true] at h
      obtain ⟨rfl, rfl, -⟩ := h
      rfl
    · intro b' f' t' h
      simp at h
  · refine ⟨fun _ => ⟨_, rfl, rfl, ?_, ?_, ?_⟩, by simp [get_extended_attention_mask]⟩
    · intro i
      constructor <;> intro h <;> simp [h]
    · intro b' s' h
      simp at h
    · intro b' f' t' h
      simp only [List.cons.injEq, and_true] at h
      obtain ⟨rfl, rfl, rfl, -⟩ := h
      rfl
  · exact ⟨by rintro (h | h) <;> simp at h, by simp [get_extended_attention_mask]⟩

/-- Claim C7 witness: a 1-d mask makes the function raise `ValueError`. -/
theorem claim_C7_witness :
    get_extended_attention_mask ⟨[5], [0]⟩ =
      Except.error ConsistencyModels.PyError.valueError :=
  (claim_C7_extended_attention_mask ⟨[5], [0]⟩).2.mpr (by decide)

/-- Claim C8: `Blip2Encoder.forward` returns the same value with and
without gradient checkpointing: the checkpointed closure passes exactly
`(hidden_states, attention_mask, output_attentions)` to the layer, the
value semantics of `torch.utils.checkpoint.checkpoint` is plain
application, and the rest of the loop is unchanged, so the final hidden
state, the collected hidden states and the collected attention weights
all agree. -/
theorem claim_C8_checkpoint_equivalence {H A W : Type}
    (layers : List (H → A → Bool → H × Option W)) (training : Bool)
    (inputs_embeds : H) (attention_mask : A)
    (output_attentions output_hidden_states : Bool) :
    blip2EncoderForward layers true training inputs_embeds attention_mask
        output_attentions output_hidden_states =
      blip2EncoderForward layers false training inputs_embeds attention_mask
        output_attentions output_hidden_states := by
  have key : ∀ (ls : List (H → A → Bool → H × Option W)) (h : H),
      blip2EncoderLoop true training output_attentions output_hidden_states
          attention_mask ls h =
        blip2EncoderLoop false training output_attentions output_hidden_states
          attention_mask ls h := by
    intro ls
    induction ls with
    | nil => intro h; rfl
    | cons l rest ih =>
      intro h
      cases training <;>
        simp [blip2EncoderLoop, blip2CheckpointCall, ih]
  simp [blip2EncoderForward, key]

/-- Claim C10: `Blip2QFormerAttention.prune_heads` re-establishes
`all_head_size = num_attention_heads * attention_head_size`, unions the
newly pruned heads into `pruned_heads`, and is the identity on the
module for an empty head list. -/
theorem claim_C10_prune_heads {L : Type} (prune_linear : L → Finset ℕ → L)
    (m : QFormerAttentionModule L) (heads : List ℕ)
    (hinv : m.all_head_size = m.num_attention_heads * m.attention_head_size) :
    ((prune_heads prune_linear m heads).all_head_size =
        (prune_heads prune_linear m heads).num_attention_heads *
          (prune_heads prune_linear m heads).attention_head_size)
    ∧ (prune_heads prune_linear m heads).pruned_heads =
        m.pruned_heads ∪ heads.toFinset
    ∧ (heads = [] → prune_heads prune_linear m heads = m) := by
  rcases heads with _ | ⟨h0, hs⟩
  · exact ⟨by simpa [prune_heads] using hinv, by simp [prune_heads], fun _ => by simp [prune_heads]⟩
  · refine ⟨?_, ?_, ?_⟩
    · simp [prune_heads, find_pruneable_heads, Nat.mul_comm]
    · simp [prune_heads, find_pruneable_heads, Finset.union_sdiff_self_eq_union]
    · intro hcon
      cases hcon

/-- Claim C10 witness: a module with 4 heads of size 2 pruning head 1. -/
theorem claim_C10_witness :
    (⟨4, 2, 8, ∅, 0, 0, 0, 0⟩ : QFormerAttentionModule ℕ).all_head_size =
      (⟨4, 2, 8, ∅, 0, 0, 0, 0⟩ : QFormerAttentionModule ℕ).num_attention_heads *
        (⟨4, 2, 8, ∅, 0, 0, 0, 0⟩ : QFormerAttentionModule ℕ).attention_head_size
    ∧ (((prune_heads (fun l _ => l) ⟨4, 2, 8, ∅, 0, 0, 0, 0⟩ [1]).all_head_size =
        (prune_heads (fun l _ => l) ⟨4, 2, 8, ∅, 0, 0, 0, 0⟩ [1]).num_attention_heads *
          (prune_heads (fun l _ => l) ⟨4, 2, 8, ∅, 0, 0, 0, 0⟩ [1]).attention_head_size)
      ∧ (prune_heads (fun l _ => l)
          (⟨4, 2, 8, ∅, 0, 0, 0, 0⟩ : QFormerAttentionModule ℕ) [1]).pruned_heads =
        (⟨4, 2, 8, ∅, 0, 0, 0, 0⟩ : QFormerAttentionModule ℕ).pruned_heads ∪ [1].toFinset
      ∧ ([1] = [] → prune_heads (fun l _ => l)
          (⟨4, 2, 8, ∅, 0, 0, 0, 0⟩ : QFormerAttentionModule ℕ) [1] =
            ⟨4, 2, 8, ∅, 0, 0, 0, 0⟩)) :=
  ⟨by decide, claim_C10_prune_heads (fun l _ => l) ⟨4, 2, 8, ∅, 0, 0, 0, 0⟩ [1] (by decide)⟩

end Blip2
